import Mathlib

/-!
# podman `layer` command: output destination and pipe lifecycle

Shallow embedding of `cmd/podman/images/layer.go`:

* the argument validator `layerCommand.Args` (lines 28-40), shared with
  `imageModifyCommand` (line 48);
* the flag registration `layerFlags` (lines 77-94);
* the placeholder producer `replace` (lines 96-98);
* the command body `layer` (lines 100-145), including the deferred closure
  that runs the pipe cleanup and conditionally waits on the result channel.

Go errors are modelled by their message, a nil error by `none`.  Calls to
collaborators that live outside the file (terminal probe, `setupPipe`,
`parse.ValidateFileName`) are recorded in an event trace, and their results
are taken from an explicit environment.
-/

namespace Podman

/-- A Go `error` value, identified by its message. -/
structure GoError where
  msg : String
  deriving DecidableEq, Repr

/-- Modelled from the spec: the constant `define.OCIManifestDir` of
`libpod/define`, the directory layout with an OCI manifest; its value is the
one named in the message of layer.go:106 and in the help text of layer.go:85. -/
def OCIManifestDir : String := "oci-dir"

/-- Modelled from the spec: the constant `define.V2s2ManifestDir` of
`libpod/define`, the directory layout with a v2s2 manifest; its value is the
one named in the message of layer.go:106 and in the help text of layer.go:85. -/
def V2s2ManifestDir : String := "docker-dir"

/-- Modelled from the spec: the constant `define.V2s2Archive` of
`libpod/define`, the default of the `format` flag (layer.go:85). -/
def V2s2Archive : String := "docker-archive"

/-- The fields of `entities.ImageSaveOptions` that layer.go binds to flags;
`layerOpts` (layer.go:61) is a package-level variable of this type. -/
structure ImageSaveOptions where
  Compress : Bool
  OciAcceptUncompressedLayers : Bool
  Format : String
  MultiImageArchive : Bool
  Output : String
  Quiet : Bool
  deriving DecidableEq, Repr

/-! ## Argument validator (layer.go:28-40) -/

/-- The error of layer.go:30. -/
def errNeedArgument : GoError := ⟨"need at least 1 argument"⟩

/-- The error of layer.go:37: the message lists the valid formats joined by
single spaces (`strings.Join`). -/
def errFormatValue (validSaveFormats : List String) : GoError :=
  ⟨"format value must be one of " ++ String.intercalate " " validSaveFormats⟩

/-- The function `util.StringInSlice`: membership of a string in a slice. -/
def StringInSlice (s : String) (slice : List String) : Bool :=
  slice.contains s

/-- The function literal `layerCommand.Args` (layer.go:28-40).
`validSaveFormats` stands for `common.ValidSaveFormats`; `getFormat` is the
result of `cmd.Flags().GetString("format")`. -/
def layerCommandArgs (validSaveFormats : List String)
    (getFormat : Except GoError String) (args : List String) : Option GoError :=
  if args.length == 0 then
    some errNeedArgument
  else
    match getFormat with
    | .error err => some err
    | .ok format =>
      if !StringInSlice format validSaveFormats then
        some (errFormatValue validSaveFormats)
      else
        none

/-- The field `Args` of `imageModifyCommand` is `layerCommand.Args`
(layer.go:48). -/
def imageModifyCommandArgs := layerCommandArgs

/-! ## Flags (layer.go:77-94) -/

/-- What the command line gave for each flag of `layerFlags`: `none` when
the flag does not occur, otherwise the value it was last set to (a bare
boolean flag such as `--compress` sets `true`). -/
structure FlagArgs where
  compress : Option Bool
  uncompressed : Option Bool
  format : Option String
  output : Option String
  quiet : Option Bool
  multiImageArchive : Option Bool
  deriving DecidableEq, Repr

/-- The state left by flag parsing: the bound variable `layerOpts` and the
`Changed` bit of the `compress` flag, which is set as soon as the flag
occurs on the command line, whatever value it is given. -/
structure ParsedFlags where
  layerOpts : ImageSaveOptions
  compressChanged : Bool
  deriving DecidableEq, Repr

/-- The registration `layerFlags` (layer.go:77-94) followed by parsing of the
given flags: every variable starts at the default written at its
registration and takes the command-line value when there is one.
`multiImageArchiveDefault` stands for
`containerConfig.Engine.MultiImageArchive`. -/
def layerFlags (multiImageArchiveDefault : Bool) (given : FlagArgs) : ParsedFlags :=
  { layerOpts :=
      { Compress := given.compress.getD false
        OciAcceptUncompressedLayers := given.uncompressed.getD false
        Format := given.format.getD V2s2Archive
        Output := given.output.getD ""
        Quiet := given.quiet.getD false
        MultiImageArchive := given.multiImageArchive.getD multiImageArchiveDefault }
    compressChanged := given.compress.isSome }

/-! ## The command body (layer.go:96-145) -/

/-- The error of layer.go:106. -/
def errCompress : GoError :=
  ⟨"--compress can only be set when --format is either \x27oci-dir\x27 or \x27docker-dir\x27"⟩

/-- The error of layer.go:112. -/
def errTerminal : GoError :=
  ⟨"refusing to modify to terminal. Use -o flag or redirect"⟩

/-- What `setupPipe()` returned (layer.go:114): the pipe path, the cleanup
closure and the error.  The closure is `none` when it is nil; otherwise it
carries the value that the background copier sends on the channel the
closure returns (`none` for a nil error). -/
structure SetupPipeResult where
  pipePath : String
  cleanup : Option (Option GoError)
  err : Option GoError
  deriving DecidableEq, Repr

/-- The collaborators of `layer` that are not defined in layer.go. -/
structure Env where
  /-- The answer of `term.IsTerminal(int(os.Stdout.Fd()))`. -/
  stdoutIsTerminal : Bool
  /-- The result of `setupPipe()`. -/
  setupPipe : SetupPipeResult
  /-- The function `parse.ValidateFileName`. -/
  validateFileName : String → Option GoError

/-- Observable steps of one run of `layer`, in program order. -/
inductive Event where
  /-- The probe `term.IsTerminal` at layer.go:111. -/
  | isTerminal
  /-- The call `setupPipe()` at layer.go:114. -/
  | setupPipe
  /-- The call `parse.ValidateFileName(layerOpts.Output)` at layer.go:131. -/
  | validateFileName (path : String)
  /-- The producer call at layer.go:140, with its two arguments and the value
  of the package variable `layerOpts` at that moment. -/
  | producer (layerOpts : ImageSaveOptions) (oldLayer newLayer : String)
  /-- The call `cleanup()` at layer.go:120. -/
  | cleanup
  /-- The receive `<-errc` at layer.go:122. -/
  | recvErrc
  deriving DecidableEq, Repr

/-- The return statement through which a run of `layer` leaves. -/
inductive ReturnSite where
  /-- The return at layer.go:106. -/
  | compressFormat
  /-- The return at layer.go:112. -/
  | terminal
  /-- The return at layer.go:116. -/
  | setupPipeFailed
  /-- The return at layer.go:132. -/
  | fileName
  /-- The return at layer.go:144. -/
  | afterProducer
  deriving DecidableEq, Repr

/-- The result of one run of `layer`: the named result `finalErr` after
the deferred closure has run, the package variable `layerOpts` as the run
leaves it, the local `tags`, the calls made, and the return statement taken. -/
structure Outcome where
  finalErr : Option GoError
  layerOpts : ImageSaveOptions
  tags : List String
  trace : List Event
  site : ReturnSite
  deriving DecidableEq, Repr

/-- The function `replace` (layer.go:96-98). -/
def replace (_oldLayer : String) (_newLayer : String) : Option GoError :=
  none

/-- The deferred closure of layer.go:119-127, run at function exit with the
value `succeeded` has then and the `finalErr` set by the return statement.
`deferred` is `none` when no closure was registered (the pipe was not set up,
or `cleanup` was nil).  Returns the new `finalErr` and the calls made. -/
def runDeferred (deferred : Option (Option GoError)) (succeeded : Bool)
    (finalErr : Option GoError) : Option GoError × List Event :=
  match deferred with
  | none => (finalErr, [])
  | some writeErr =>
    if succeeded then
      if writeErr != none && finalErr == none then
        (writeErr, [Event.cleanup, Event.recvErrc])
      else
        (finalErr, [Event.cleanup, Event.recvErrc])
    else
      (finalErr, [Event.cleanup])

/-- Lines 131-144 of `layer` followed by the deferred closure: the file name
check, the tags, the producer call.  `pre` is the trace so far. -/
def layerTail (producer : String → String → Option GoError) (env : Env)
    (layerOpts : ImageSaveOptions) (args : List String)
    (deferred : Option (Option GoError)) (pre : List Event) : Outcome :=
  match env.validateFileName layerOpts.Output with
  | some err =>
    let d := runDeferred deferred false (some err)
    { finalErr := d.1, layerOpts := layerOpts, tags := [],
      trace := pre ++ [Event.validateFileName layerOpts.Output] ++ d.2,
      site := ReturnSite.fileName }
  | none =>
    let tags := if args.length > 1 then args.drop 1 else []
    let oldLayer := "old"
    let newLayer := "new"
    let err := producer oldLayer newLayer
    let succeeded := err == none
    let d := runDeferred deferred succeeded err
    { finalErr := d.1, layerOpts := layerOpts, tags := tags,
      trace := pre ++ [Event.validateFileName layerOpts.Output,
                       Event.producer layerOpts oldLayer newLayer] ++ d.2,
      site := ReturnSite.afterProducer }

/-- The body of `layer` (layer.go:100-145) with the callee of line 140 as a
parameter.  `compressChanged` is `cmd.Flag("compress").Changed`, `layerOpts`
the package variable at entry. -/
def layerWith (producer : String → String → Option GoError) (env : Env)
    (compressChanged : Bool) (layerOpts : ImageSaveOptions) (args : List String) :
    Outcome :=
  if compressChanged &&
      (layerOpts.Format != OCIManifestDir && layerOpts.Format != V2s2ManifestDir) then
    { finalErr := some errCompress, layerOpts := layerOpts, tags := [], trace := [],
      site := ReturnSite.compressFormat }
  else if layerOpts.Output.length == 0 then
    let layerOpts := { layerOpts with Quiet := true }
    if env.stdoutIsTerminal then
      { finalErr := some errTerminal, layerOpts := layerOpts, tags := [],
        trace := [Event.isTerminal], site := ReturnSite.terminal }
    else
      match env.setupPipe.err with
      | some err =>
        { finalErr := some err, layerOpts := layerOpts, tags := [],
          trace := [Event.isTerminal, Event.setupPipe],
          site := ReturnSite.setupPipeFailed }
      | none =>
        layerTail producer env { layerOpts with Output := env.setupPipe.pipePath } args
          env.setupPipe.cleanup [Event.isTerminal, Event.setupPipe]
  else
    layerTail producer env layerOpts args none []

/-- The function `layer` (layer.go:100-145): the body with `replace` as the
producer of line 140. -/
def layer (env : Env) (compressChanged : Bool) (layerOpts : ImageSaveOptions)
    (args : List String) : Outcome :=
  layerWith replace env compressChanged layerOpts args

/-- A run of the command from the command line: flags are parsed into
`layerOpts` and the `Changed` bit, then the body runs. -/
def runLayer (producer : String → String → Option GoError) (env : Env)
    (multiImageArchiveDefault : Bool) (given : FlagArgs) (args : List String) :
    Outcome :=
  let parsed := layerFlags multiImageArchiveDefault given
  layerWith producer env parsed.compressChanged parsed.layerOpts args

/-! ## Concrete collaborators used to evaluate the definitions -/

/-- A file name check that rejects every name containing a colon. -/
def rejectColon (filename : String) : Option GoError :=
  if filename.toList.contains ':' then some ⟨"invalid filename"⟩ else none

/-- A producer that always fails. -/
def failingProducer (_oldLayer : String) (_newLayer : String) : Option GoError :=
  some ⟨"producer failed"⟩

/-- An environment whose standard output is a pipe and whose `setupPipe`
succeeds with a cleanup closure; the copier reports `writeErr`. -/
def envPipe (pipePath : String) (writeErr : Option GoError) : Env :=
  { stdoutIsTerminal := false
    setupPipe := { pipePath := pipePath, cleanup := some writeErr, err := none }
    validateFileName := rejectColon }

/-- An environment whose standard output is a terminal. -/
def envTerminal : Env :=
  { stdoutIsTerminal := true
    setupPipe := { pipePath := "/tmp/pipe1/saveio", cleanup := some none, err := none }
    validateFileName := rejectColon }

/-- Options as left by flag parsing when only `format` and `output` are given. -/
def optsOf (format output : String) : ImageSaveOptions :=
  { Compress := false, OciAcceptUncompressedLayers := false, Format := format,
    MultiImageArchive := false, Output := output, Quiet := false }

/-! ## Shape of a run, path by path -/

/-- The test `len(s) == 0` holds exactly for the empty string. -/
theorem length_beq_zero_iff (s : String) : (s.length == 0) = true ↔ s = "" := by
  constructor
  · intro h
    have h0 : s.length = 0 := by simpa using h
    cases s with
    | mk l =>
      have hl : l = [] := List.length_eq_zero.mp h0
      subst hl
      rfl
  · intro h
    subst h
    rfl

/-- The condition of layer.go:105 is false exactly when the flag was not
changed or the format is one of the two directory layouts. -/
theorem compress_cond_false (compressChanged : Bool) (layerOpts : ImageSaveOptions)
    (hpass : compressChanged = true →
      layerOpts.Format = OCIManifestDir ∨ layerOpts.Format = V2s2ManifestDir) :
    (compressChanged &&
      (layerOpts.Format != OCIManifestDir && layerOpts.Format != V2s2ManifestDir)) = false := by
  cases compressChanged with
  | false => simp
  | true =>
    rcases hpass rfl with h | h <;> simp [h]

/-- The condition of layer.go:105 is true when the flag was changed and the
format is neither of the two directory layouts. -/
theorem compress_cond_true (layerOpts : ImageSaveOptions)
    (h1 : layerOpts.Format ≠ OCIManifestDir) (h2 : layerOpts.Format ≠ V2s2ManifestDir) :
    (true &&
      (layerOpts.Format != OCIManifestDir && layerOpts.Format != V2s2ManifestDir)) = true := by
  simp [h1, h2]

/-- Run that leaves at layer.go:106. -/
theorem layerWith_rejected (producer : String → String → Option GoError) (env : Env)
    (layerOpts : ImageSaveOptions) (args : List String)
    (h1 : layerOpts.Format ≠ OCIManifestDir) (h2 : layerOpts.Format ≠ V2s2ManifestDir) :
    layerWith producer env true layerOpts args =
      { finalErr := some errCompress, layerOpts := layerOpts, tags := [], trace := [],
        site := ReturnSite.compressFormat } := by
  unfold layerWith
  rw [if_pos (compress_cond_true layerOpts h1 h2)]

/-- Run that leaves at layer.go:112. -/
theorem layerWith_terminal (producer : String → String → Option GoError) (env : Env)
    (compressChanged : Bool) (layerOpts : ImageSaveOptions) (args : List String)
    (hpass : compressChanged = true →
      layerOpts.Format = OCIManifestDir ∨ layerOpts.Format = V2s2ManifestDir)
    (hout : layerOpts.Output = "") (hterm : env.stdoutIsTerminal = true) :
    layerWith producer env compressChanged layerOpts args =
      { finalErr := some errTerminal, layerOpts := { layerOpts with Quiet := true },
        tags := [], trace := [Event.isTerminal], site := ReturnSite.terminal } := by
  unfold layerWith
  rw [compress_cond_false compressChanged layerOpts hpass]
  simp [hout, hterm]

/-- Run in which `setupPipe` fails: it leaves at layer.go:116. -/
theorem layerWith_setupPipe_failed (producer : String → String → Option GoError) (env : Env)
    (compressChanged : Bool) (layerOpts : ImageSaveOptions) (args : List String)
    (hpass : compressChanged = true →
      layerOpts.Format = OCIManifestDir ∨ layerOpts.Format = V2s2ManifestDir)
    (hout : layerOpts.Output = "") (hterm : env.stdoutIsTerminal = false)
    (err : GoError) (herr : env.setupPipe.err = some err) :
    layerWith producer env compressChanged layerOpts args =
      { finalErr := some err, layerOpts := { layerOpts with Quiet := true },
        tags := [], trace := [Event.isTerminal, Event.setupPipe],
        site := ReturnSite.setupPipeFailed } := by
  unfold layerWith
  rw [compress_cond_false compressChanged layerOpts hpass]
  simp [hout, hterm, herr]

/-- Run in which `setupPipe` succeeds: it continues at layer.go:129 with the
pipe path as output. -/
theorem layerWith_piped (producer : String → String → Option GoError) (env : Env)
    (compressChanged : Bool) (layerOpts : ImageSaveOptions) (args : List String)
    (hpass : compressChanged = true →
      layerOpts.Format = OCIManifestDir ∨ layerOpts.Format = V2s2ManifestDir)
    (hout : layerOpts.Output = "") (hterm : env.stdoutIsTerminal = false)
    (herr : env.setupPipe.err = none) :
    layerWith producer env compressChanged layerOpts args =
      layerTail producer env
        { layerOpts with Quiet := true, Output := env.setupPipe.pipePath } args
        env.setupPipe.cleanup [Event.isTerminal, Event.setupPipe] := by
  unfold layerWith
  rw [compress_cond_false compressChanged layerOpts hpass]
  simp [hout, hterm, herr]

/-- Run with an output path given: it continues at layer.go:131, and no
closure is deferred. -/
theorem layerWith_file (producer : String → String → Option GoError) (env : Env)
    (compressChanged : Bool) (layerOpts : ImageSaveOptions) (args : List String)
    (hpass : compressChanged = true →
      layerOpts.Format = OCIManifestDir ∨ layerOpts.Format = V2s2ManifestDir)
    (hout : layerOpts.Output ≠ "") :
    layerWith producer env compressChanged layerOpts args =
      layerTail producer env layerOpts args none [] := by
  unfold layerWith
  rw [compress_cond_false compressChanged layerOpts hpass]
  have hlen : (layerOpts.Output.length == 0) = false := by
    cases h : (layerOpts.Output.length == 0) with
    | false => rfl
    | true => exact absurd ((length_beq_zero_iff _).mp h) hout
  simp [hlen]

/-- Case analysis on a run of the body: a property of the outcome holds as
soon as it holds on each of the five paths through lines 105-130. -/
theorem layerWith_cases (P : Outcome → Prop)
    (producer : String → String → Option GoError) (env : Env)
    (compressChanged : Bool) (layerOpts : ImageSaveOptions) (args : List String)
    (hrejected : compressChanged = true → layerOpts.Format ≠ OCIManifestDir →
      layerOpts.Format ≠ V2s2ManifestDir →
      P { finalErr := some errCompress, layerOpts := layerOpts, tags := [], trace := [],
          site := ReturnSite.compressFormat })
    (hterminal : layerOpts.Output = "" → env.stdoutIsTerminal = true →
      P { finalErr := some errTerminal, layerOpts := { layerOpts with Quiet := true },
          tags := [], trace := [Event.isTerminal], site := ReturnSite.terminal })
    (hfailed : ∀ err, layerOpts.Output = "" → env.stdoutIsTerminal = false →
      env.setupPipe.err = some err →
      P { finalErr := some err, layerOpts := { layerOpts with Quiet := true },
          tags := [], trace := [Event.isTerminal, Event.setupPipe],
          site := ReturnSite.setupPipeFailed })
    (hpiped : layerOpts.Output = "" → env.stdoutIsTerminal = false →
      env.setupPipe.err = none →
      P (layerTail producer env
          { layerOpts with Quiet := true, Output := env.setupPipe.pipePath } args
          env.setupPipe.cleanup [Event.isTerminal, Event.setupPipe]))
    (hfile : layerOpts.Output ≠ "" → P (layerTail producer env layerOpts args none [])) :
    P (layerWith producer env compressChanged layerOpts args) := by
  by_cases hpass : compressChanged = true →
      layerOpts.Format = OCIManifestDir ∨ layerOpts.Format = V2s2ManifestDir
  · by_cases hout : layerOpts.Output = ""
    · cases hterm : env.stdoutIsTerminal with
      | true =>
        rw [layerWith_terminal producer env compressChanged layerOpts args hpass hout hterm]
        exact hterminal hout hterm
      | false =>
        cases herr : env.setupPipe.err with
        | some err =>
          rw [layerWith_setupPipe_failed producer env compressChanged layerOpts args hpass
            hout hterm err herr]
          exact hfailed err hout hterm herr
        | none =>
          rw [layerWith_piped producer env compressChanged layerOpts args hpass hout hterm
            herr]
          exact hpiped hout hterm herr
    · rw [layerWith_file producer env compressChanged layerOpts args hpass hout]
      exact hfile hout
  · have hch : compressChanged = true := by
      by_contra h
      exact hpass (fun h2 => absurd h2 h)
    have h1 : layerOpts.Format ≠ OCIManifestDir := fun h => hpass (fun _ => Or.inl h)
    have h2 : layerOpts.Format ≠ V2s2ManifestDir := fun h => hpass (fun _ => Or.inr h)
    subst hch
    rw [layerWith_rejected producer env layerOpts args h1 h2]
    exact hrejected rfl h1 h2

/-! ## Compress/format rejection -/

/-- Claim C1.  For every command line whose parsed options have `Compress`
true and a format that is neither `oci-dir` nor `docker-dir`, `layer` returns
the error of layer.go:106 through that return statement, and nothing has been
called before it: the trace is empty, so `setupPipe` was not called. -/
theorem C1_compress_with_archive_format_rejected
    (producer : String → String → Option GoError) (env : Env)
    (multiImageArchiveDefault : Bool) (given : FlagArgs) (args : List String)
    (hcompress : (layerFlags multiImageArchiveDefault given).layerOpts.Compress = true)
    (h1 : (layerFlags multiImageArchiveDefault given).layerOpts.Format ≠ OCIManifestDir)
    (h2 : (layerFlags multiImageArchiveDefault given).layerOpts.Format ≠ V2s2ManifestDir) :
    (runLayer producer env multiImageArchiveDefault given args).finalErr = some errCompress ∧
    (runLayer producer env multiImageArchiveDefault given args).site =
      ReturnSite.compressFormat ∧
    (runLayer producer env multiImageArchiveDefault given args).trace = [] ∧
    Event.setupPipe ∉ (runLayer producer env multiImageArchiveDefault given args).trace := by
  have hchanged : (layerFlags multiImageArchiveDefault given).compressChanged = true := by
    cases hg : given.compress with
    | none => simp [layerFlags, hg] at hcompress
    | some b => simp [layerFlags, hg]
  have hrun : runLayer producer env multiImageArchiveDefault given args =
      { finalErr := some errCompress,
        layerOpts := (layerFlags multiImageArchiveDefault given).layerOpts,
        tags := [], trace := [], site := ReturnSite.compressFormat } := by
    unfold runLayer
    simp only [hchanged]
    exact layerWith_rejected producer env _ args h1 h2
  rw [hrun]
  simp

theorem C1_witness :
    (layerFlags false ⟨some true, none, some "docker-archive", some "out.tar", none, none⟩).layerOpts.Compress
      = true ∧
    (runLayer replace envTerminal false
      ⟨some true, none, some "docker-archive", some "out.tar", none, none⟩ ["alpine"]).finalErr
      = some errCompress ∧
    (runLayer replace envTerminal false
      ⟨some true, none, some "docker-archive", some "out.tar", none, none⟩ ["alpine"]).trace = [] :=
  ⟨by decide,
   (C1_compress_with_archive_format_rejected replace envTerminal false
      ⟨some true, none, some "docker-archive", some "out.tar", none, none⟩ ["alpine"]
      (by decide) (by decide) (by decide)).1,
   (C1_compress_with_archive_format_rejected replace envTerminal false
      ⟨some true, none, some "docker-archive", some "out.tar", none, none⟩ ["alpine"]
      (by decide) (by decide) (by decide)).2.2.1⟩

/-! ## Terminal refusal -/

/-- Claim C2.  When the check of layer.go:105 passes, the output path is empty
and standard output is a terminal, `layer` returns the error of layer.go:112
through that return statement; the only call made is the terminal probe, so
`setupPipe`, the file name check and the producer were not called. -/
theorem C2_terminal_refused_before_pipe
    (producer : String → String → Option GoError) (env : Env)
    (compressChanged : Bool) (layerOpts : ImageSaveOptions) (args : List String)
    (hpass : compressChanged = true →
      layerOpts.Format = OCIManifestDir ∨ layerOpts.Format = V2s2ManifestDir)
    (hout : layerOpts.Output = "") (hterm : env.stdoutIsTerminal = true) :
    (layerWith producer env compressChanged layerOpts args).finalErr = some errTerminal ∧
    (layerWith producer env compressChanged layerOpts args).site = ReturnSite.terminal ∧
    Event.setupPipe ∉ (layerWith producer env compressChanged layerOpts args).trace ∧
    (∀ path, Event.validateFileName path ∉
      (layerWith producer env compressChanged layerOpts args).trace) ∧
    (∀ opts oldLayer newLayer, Event.producer opts oldLayer newLayer ∉
      (layerWith producer env compressChanged layerOpts args).trace) := by
  rw [layerWith_terminal producer env compressChanged layerOpts args hpass hout hterm]
  simp

theorem C2_witness :
    (layer envTerminal false (optsOf "docker-archive" "") ["alpine"]).finalErr
      = some errTerminal ∧
    Event.setupPipe ∉ (layer envTerminal false (optsOf "docker-archive" "") ["alpine"]).trace :=
  ⟨(C2_terminal_refused_before_pipe replace envTerminal false (optsOf "docker-archive" "")
      ["alpine"] (by decide) (by decide) (by decide)).1,
   (C2_terminal_refused_before_pipe replace envTerminal false (optsOf "docker-archive" "")
      ["alpine"] (by decide) (by decide) (by decide)).2.2.1⟩

/-! ## Streaming to standard output -/

/-- Claim C3.  When the check of layer.go:105 passes, the output path is empty,
standard output is not a terminal and `setupPipe` succeeds with path `p`, then
after `layer` the options have `Quiet` true and `Output` equal to `p`; the file
name check is called on `p` and on nothing else; every producer call is made
with `layerOpts.Output` equal to `p`, and the producer is called whenever the
file name check accepts `p`. -/
theorem C3_pipe_path_becomes_output
    (producer : String → String → Option GoError) (env : Env)
    (compressChanged : Bool) (layerOpts : ImageSaveOptions) (args : List String)
    (hpass : compressChanged = true →
      layerOpts.Format = OCIManifestDir ∨ layerOpts.Format = V2s2ManifestDir)
    (hout : layerOpts.Output = "") (hterm : env.stdoutIsTerminal = false)
    (herr : env.setupPipe.err = none) :
    (layerWith producer env compressChanged layerOpts args).layerOpts.Quiet = true ∧
    (layerWith producer env compressChanged layerOpts args).layerOpts.Output =
      env.setupPipe.pipePath ∧
    Event.validateFileName env.setupPipe.pipePath ∈
      (layerWith producer env compressChanged layerOpts args).trace ∧
    (∀ path, Event.validateFileName path ∈
      (layerWith producer env compressChanged layerOpts args).trace →
      path = env.setupPipe.pipePath) ∧
    (∀ opts oldLayer newLayer, Event.producer opts oldLayer newLayer ∈
      (layerWith producer env compressChanged layerOpts args).trace →
      opts.Output = env.setupPipe.pipePath) ∧
    (env.validateFileName env.setupPipe.pipePath = none →
      Event.producer (layerWith producer env compressChanged layerOpts args).layerOpts
        "old" "new" ∈ (layerWith producer env compressChanged layerOpts args).trace) := by
  rw [layerWith_piped producer env compressChanged layerOpts args hpass hout hterm herr]
  unfold layerTail runDeferred
  cases hv : env.validateFileName env.setupPipe.pipePath with
  | some e =>
    cases hc : env.setupPipe.cleanup with
    | none => simp [hv]
    | some w => simp [hv]
  | none =>
    have hsnap : ∀ (opts : ImageSaveOptions) (oldLayer newLayer : String),
        opts = { layerOpts with Quiet := true, Output := env.setupPipe.pipePath } →
        oldLayer = "old" → newLayer = "new" → opts.Output = env.setupPipe.pipePath := by
      intro opts _ _ h _ _
      rw [h]
    cases hc : env.setupPipe.cleanup with
    | none => simpa [hv] using hsnap
    | some w =>
      cases hp : producer "old" "new" with
      | none => cases w <;> simpa [hv, hp] using hsnap
      | some e => cases w <;> simpa [hv, hp] using hsnap

theorem C3_witness :
    (layer (envPipe "/tmp/pipe1/saveio" none) false (optsOf "docker-archive" "")
      ["alpine"]).layerOpts.Quiet = true ∧
    (layer (envPipe "/tmp/pipe1/saveio" none) false (optsOf "docker-archive" "")
      ["alpine"]).layerOpts.Output = "/tmp/pipe1/saveio" :=
  ⟨(C3_pipe_path_becomes_output replace (envPipe "/tmp/pipe1/saveio" none) false
      (optsOf "docker-archive" "") ["alpine"] (by decide) (by decide) (by decide)
      (by decide)).1,
   (C3_pipe_path_becomes_output replace (envPipe "/tmp/pipe1/saveio" none) false
      (optsOf "docker-archive" "") ["alpine"] (by decide) (by decide) (by decide)
      (by decide)).2.1⟩

/-! ## Error precedence and the wait on the result channel -/

/-- Claim C4.  In a streaming run where `setupPipe` succeeded with a cleanup
closure and the file name check accepted the pipe path, the final error is the
first non-nil of the producer error and the copier error: the producer error
when there is one, whatever the copier reports, and otherwise exactly what the
copier reports. -/
theorem C4_final_error_is_first_of_producer_and_copier
    (producer : String → String → Option GoError) (env : Env)
    (compressChanged : Bool) (layerOpts : ImageSaveOptions) (args : List String)
    (writeErr : Option GoError)
    (hpass : compressChanged = true →
      layerOpts.Format = OCIManifestDir ∨ layerOpts.Format = V2s2ManifestDir)
    (hout : layerOpts.Output = "") (hterm : env.stdoutIsTerminal = false)
    (herr : env.setupPipe.err = none) (hcleanup : env.setupPipe.cleanup = some writeErr)
    (hvalid : env.validateFileName env.setupPipe.pipePath = none) :
    (∀ e, producer "old" "new" = some e →
      (layerWith producer env compressChanged layerOpts args).finalErr = some e) ∧
    (producer "old" "new" = none →
      (layerWith producer env compressChanged layerOpts args).finalErr = writeErr) ∧
    (layerWith producer env compressChanged layerOpts args).finalErr =
      (producer "old" "new" <|> writeErr) := by
  rw [layerWith_piped producer env compressChanged layerOpts args hpass hout hterm herr]
  unfold layerTail runDeferred
  cases hp : producer "old" "new" with
  | none => cases writeErr <;> simp [hvalid, hcleanup, hp]
  | some e => cases writeErr <;> simp [hvalid, hcleanup, hp]

theorem C4_witness :
    (layerWith failingProducer (envPipe "/tmp/pipe1/saveio" (some ⟨"copy failed"⟩)) false
      (optsOf "docker-archive" "") ["alpine"]).finalErr = some ⟨"producer failed"⟩ ∧
    (layer (envPipe "/tmp/pipe1/saveio" (some ⟨"copy failed"⟩)) false
      (optsOf "docker-archive" "") ["alpine"]).finalErr = some ⟨"copy failed"⟩ :=
  ⟨(C4_final_error_is_first_of_producer_and_copier failingProducer
      (envPipe "/tmp/pipe1/saveio" (some ⟨"copy failed"⟩)) false (optsOf "docker-archive" "")
      ["alpine"] (some ⟨"copy failed"⟩) (by decide) (by decide) (by decide) (by decide)
      (by decide) (by decide)).1 ⟨"producer failed"⟩ rfl,
   (C4_final_error_is_first_of_producer_and_copier replace
      (envPipe "/tmp/pipe1/saveio" (some ⟨"copy failed"⟩)) false (optsOf "docker-archive" "")
      ["alpine"] (some ⟨"copy failed"⟩) (by decide) (by decide) (by decide) (by decide)
      (by decide) (by decide)).2.1 rfl⟩

/-- Claim C5.  A run of `layer` receives from the result channel if and only
if `setupPipe` was called and returned a cleanup closure without error (the
transport was opened), the run reached the return after the producer, and the
producer returned nil.  In particular a run that leaves at the file name check
never receives, and a run whose producer fails never receives. -/
theorem C5_receive_iff_transport_open_and_producer_ok
    (producer : String → String → Option GoError) (env : Env)
    (compressChanged : Bool) (layerOpts : ImageSaveOptions) (args : List String) :
    (Event.recvErrc ∈ (layerWith producer env compressChanged layerOpts args).trace ↔
      (Event.setupPipe ∈ (layerWith producer env compressChanged layerOpts args).trace ∧
       env.setupPipe.err = none ∧ env.setupPipe.cleanup ≠ none ∧
       (layerWith producer env compressChanged layerOpts args).site =
         ReturnSite.afterProducer ∧
       producer "old" "new" = none)) ∧
    ((layerWith producer env compressChanged layerOpts args).site = ReturnSite.fileName →
      Event.recvErrc ∉ (layerWith producer env compressChanged layerOpts args).trace) ∧
    (producer "old" "new" ≠ none →
      Event.recvErrc ∉ (layerWith producer env compressChanged layerOpts args).trace) := by
  refine layerWith_cases
    (fun r => (Event.recvErrc ∈ r.trace ↔
      (Event.setupPipe ∈ r.trace ∧ env.setupPipe.err = none ∧ env.setupPipe.cleanup ≠ none ∧
        r.site = ReturnSite.afterProducer ∧ producer "old" "new" = none)) ∧
      (r.site = ReturnSite.fileName → Event.recvErrc ∉ r.trace) ∧
      (producer "old" "new" ≠ none → Event.recvErrc ∉ r.trace))
    producer env compressChanged layerOpts args ?_ ?_ ?_ ?_ ?_
  · intro _ _ _
    simp
  · intro _ _
    simp
  · intro err _ _ herr
    simp [herr]
  · intro _ _ herr
    unfold layerTail runDeferred
    cases hv : env.validateFileName env.setupPipe.pipePath with
    | some e => cases hc : env.setupPipe.cleanup <;> simp
    | none =>
      cases hc : env.setupPipe.cleanup with
      | none => simp
      | some w =>
        cases hp : producer "old" "new" with
        | none => cases w <;> simp [herr, hp]
        | some e => cases w <;> simp [hp]
  · intro _
    unfold layerTail runDeferred
    cases hv : env.validateFileName layerOpts.Output with
    | some e => simp
    | none => simp

/-! ## Cleanup -/

/-- Claim C6.  In every run where `setupPipe` succeeds and returns a cleanup
closure, the closure is called exactly once, whichever way the run leaves (at
the file name check, or after the producer, failed or not): the trace has
exactly one `cleanup`, and no receive from the result channel comes before
it. -/
theorem C6_cleanup_once_and_before_receive
    (producer : String → String → Option GoError) (env : Env)
    (compressChanged : Bool) (layerOpts : ImageSaveOptions) (args : List String)
    (writeErr : Option GoError)
    (hpass : compressChanged = true →
      layerOpts.Format = OCIManifestDir ∨ layerOpts.Format = V2s2ManifestDir)
    (hout : layerOpts.Output = "") (hterm : env.stdoutIsTerminal = false)
    (herr : env.setupPipe.err = none) (hcleanup : env.setupPipe.cleanup = some writeErr) :
    (layerWith producer env compressChanged layerOpts args).trace.count Event.cleanup = 1 ∧
    (∃ before after,
      (layerWith producer env compressChanged layerOpts args).trace =
        before ++ Event.cleanup :: after ∧
      Event.cleanup ∉ before ∧ Event.recvErrc ∉ before ∧ Event.cleanup ∉ after) ∧
    ((layerWith producer env compressChanged layerOpts args).site = ReturnSite.fileName ∨
     (layerWith producer env compressChanged layerOpts args).site =
       ReturnSite.afterProducer) := by
  rw [layerWith_piped producer env compressChanged layerOpts args hpass hout hterm herr]
  unfold layerTail runDeferred
  cases hv : env.validateFileName env.setupPipe.pipePath with
  | some e =>
    refine ⟨by simp [hcleanup, List.count_cons], ?_, by simp⟩
    exact ⟨[Event.isTerminal, Event.setupPipe,
      Event.validateFileName env.setupPipe.pipePath], [], by simp [hcleanup]⟩
  | none =>
    cases hp : producer "old" "new" with
    | some e =>
      refine ⟨by simp [hcleanup, hp, List.count_cons], ?_, by simp⟩
      exact ⟨[Event.isTerminal, Event.setupPipe,
        Event.validateFileName env.setupPipe.pipePath,
        Event.producer { layerOpts with Quiet := true, Output := env.setupPipe.pipePath }
          "old" "new"], [], by simp [hcleanup, hp]⟩
    | none =>
      refine ⟨by cases writeErr <;> simp [hcleanup, hp, List.count_cons], ?_, by simp⟩
      exact ⟨[Event.isTerminal, Event.setupPipe,
        Event.validateFileName env.setupPipe.pipePath,
        Event.producer { layerOpts with Quiet := true, Output := env.setupPipe.pipePath }
          "old" "new"], [Event.recvErrc], by cases writeErr <;> simp [hcleanup, hp]⟩

theorem C6_witness :
    (layer (envPipe "/tmp/pipe:1/saveio" none) false (optsOf "docker-archive" "")
      ["alpine"]).site = ReturnSite.fileName ∧
    (layer (envPipe "/tmp/pipe:1/saveio" none) false (optsOf "docker-archive" "")
      ["alpine"]).trace.count Event.cleanup = 1 ∧
    (layerWith failingProducer (envPipe "/tmp/pipe1/saveio" none) false
      (optsOf "docker-archive" "") ["alpine"]).trace.count Event.cleanup = 1 ∧
    (layer (envPipe "/tmp/pipe1/saveio" none) false (optsOf "docker-archive" "")
      ["alpine"]).trace.count Event.cleanup = 1 :=
  ⟨by decide,
   (C6_cleanup_once_and_before_receive replace (envPipe "/tmp/pipe:1/saveio" none) false
      (optsOf "docker-archive" "") ["alpine"] none (by decide) (by decide) (by decide)
      (by decide) (by decide)).1,
   (C6_cleanup_once_and_before_receive failingProducer (envPipe "/tmp/pipe1/saveio" none)
      false (optsOf "docker-archive" "") ["alpine"] none (by decide) (by decide) (by decide)
      (by decide) (by decide)).1,
   (C6_cleanup_once_and_before_receive replace (envPipe "/tmp/pipe1/saveio" none) false
      (optsOf "docker-archive" "") ["alpine"] none (by decide) (by decide) (by decide)
      (by decide) (by decide)).1⟩

/-! ## Output to a named file -/

/-- Claim C7.  When the output path is not empty and passes the file name
check, `layer` leaves `Output` and `Quiet` as they were at entry, whatever the
outcome of the call. -/
theorem C7_named_output_left_unchanged
    (producer : String → String → Option GoError) (env : Env)
    (compressChanged : Bool) (layerOpts : ImageSaveOptions) (args : List String)
    (hout : layerOpts.Output ≠ "")
    (hvalid : env.validateFileName layerOpts.Output = none) :
    (layerWith producer env compressChanged layerOpts args).layerOpts.Output =
      layerOpts.Output ∧
    (layerWith producer env compressChanged layerOpts args).layerOpts.Quiet =
      layerOpts.Quiet := by
  refine layerWith_cases
    (fun r => r.layerOpts.Output = layerOpts.Output ∧ r.layerOpts.Quiet = layerOpts.Quiet)
    producer env compressChanged layerOpts args ?_ ?_ ?_ ?_ ?_
  · intro _ _ _
    exact ⟨rfl, rfl⟩
  · intro h _
    exact absurd h hout
  · intro _ h _ _
    exact absurd h hout
  · intro h _ _
    exact absurd h hout
  · intro _
    unfold layerTail
    simp [hvalid]

theorem C7_witness :
    (layer envTerminal false (optsOf "docker-archive" "out.tar") ["alpine"]).layerOpts.Output
      = "out.tar" ∧
    (layer envTerminal false (optsOf "docker-archive" "out.tar") ["alpine"]).layerOpts.Quiet
      = false :=
  C7_named_output_left_unchanged replace envTerminal false (optsOf "docker-archive" "out.tar")
    ["alpine"] (by decide) (by decide)

/-! ## Configuration errors and the pipe -/

/-- Claim C8 fails as stated: with an empty output path, a standard output
that is not a terminal and a pipe path that the file name check rejects, the
run leaves at the file name check with the rejection as its error, after
`setupPipe` has been called. -/
theorem C8_counterexample :
    (layer (envPipe "/tmp/pipe:1/saveio" none) false (optsOf "docker-archive" "")
      ["alpine"]).site = ReturnSite.fileName ∧
    (layer (envPipe "/tmp/pipe:1/saveio" none) false (optsOf "docker-archive" "")
      ["alpine"]).finalErr = rejectColon "/tmp/pipe:1/saveio" ∧
    (layer (envPipe "/tmp/pipe:1/saveio" none) false (optsOf "docker-archive" "")
      ["alpine"]).finalErr ≠ none ∧
    Event.setupPipe ∈ (layer (envPipe "/tmp/pipe:1/saveio" none) false
      (optsOf "docker-archive" "") ["alpine"]).trace := by
  decide

/-- Claim C8, amended.  A run that leaves with the compress/format error, or
with the rejection of an output path given by the user (a non-empty one), has
not called `setupPipe`.  With an empty output path the file name check runs on
the pipe path, after `setupPipe`: a run that leaves there has called it. -/
theorem C8_config_errors_before_pipe_for_named_output
    (producer : String → String → Option GoError) (env : Env)
    (compressChanged : Bool) (layerOpts : ImageSaveOptions) (args : List String) :
    (((layerWith producer env compressChanged layerOpts args).site =
        ReturnSite.compressFormat ∨
      ((layerWith producer env compressChanged layerOpts args).site = ReturnSite.fileName ∧
        layerOpts.Output ≠ "")) →
      Event.setupPipe ∉ (layerWith producer env compressChanged layerOpts args).trace) ∧
    (((layerWith producer env compressChanged layerOpts args).site = ReturnSite.fileName ∧
        layerOpts.Output = "") →
      Event.setupPipe ∈ (layerWith producer env compressChanged layerOpts args).trace) := by
  refine layerWith_cases
    (fun r => ((r.site = ReturnSite.compressFormat ∨
        (r.site = ReturnSite.fileName ∧ layerOpts.Output ≠ "")) →
        Event.setupPipe ∉ r.trace) ∧
      ((r.site = ReturnSite.fileName ∧ layerOpts.Output = "") → Event.setupPipe ∈ r.trace))
    producer env compressChanged layerOpts args ?_ ?_ ?_ ?_ ?_
  · intro _ _ _
    simp
  · intro _ _
    simp
  · intro err _ _ _
    simp
  · intro hout _ _
    unfold layerTail runDeferred
    cases hv : env.validateFileName env.setupPipe.pipePath <;> simp [hout]
  · intro hout
    unfold layerTail runDeferred
    cases hv : env.validateFileName layerOpts.Output <;> simp [hout]

theorem C8_witness :
    (layer (envPipe "/tmp/pipe1/saveio" none) false (optsOf "docker-archive" "out:tar")
      ["alpine"]).site = ReturnSite.fileName ∧
    Event.setupPipe ∉ (layer (envPipe "/tmp/pipe1/saveio" none) false
      (optsOf "docker-archive" "out:tar") ["alpine"]).trace :=
  ⟨by decide,
   (C8_config_errors_before_pipe_for_named_output replace (envPipe "/tmp/pipe1/saveio" none)
      false (optsOf "docker-archive" "out:tar") ["alpine"]).1
      (Or.inr ⟨by decide, by decide⟩)⟩

/-! ## Argument validator -/

/-- Claim C9.  When the lookup of the `format` flag succeeds, the argument
validator returns nil if and only if there is at least one argument and the
format is in the list of valid save formats.  An empty argument list gives
"need at least 1 argument" whatever the format lookup gives; a non-empty list
with a format outside the list gives the "format value must be one of" error;
a failed lookup is returned as it is.  `image modify` uses the same
validator. -/
theorem C9_args_validator
    (validSaveFormats : List String) (format : String) (args : List String) :
    (layerCommandArgs validSaveFormats (Except.ok format) args = none ↔
      (1 ≤ args.length ∧ format ∈ validSaveFormats)) ∧
    (∀ getFormat, layerCommandArgs validSaveFormats getFormat [] = some errNeedArgument) ∧
    (1 ≤ args.length → format ∉ validSaveFormats →
      layerCommandArgs validSaveFormats (Except.ok format) args =
        some (errFormatValue validSaveFormats)) ∧
    (∀ err, 1 ≤ args.length →
      layerCommandArgs validSaveFormats (Except.error err) args = some err) ∧
    imageModifyCommandArgs validSaveFormats (Except.ok format) args =
      layerCommandArgs validSaveFormats (Except.ok format) args := by
  refine ⟨?_, ?_, ?_, ?_, rfl⟩
  · cases args with
    | nil => simp [layerCommandArgs]
    | cons a rest =>
      by_cases hmem : format ∈ validSaveFormats <;>
        simp [layerCommandArgs, StringInSlice, hmem]
  · intro getFormat
    simp [layerCommandArgs]
  · intro hlen hmem
    cases args with
    | nil => simp at hlen
    | cons a rest => simp [layerCommandArgs, StringInSlice, hmem]
  · intro err hlen
    cases args with
    | nil => simp at hlen
    | cons a rest => simp [layerCommandArgs]

theorem C9_witness :
    layerCommandArgs ["oci-archive", "oci-dir", "docker-archive", "docker-dir"]
      (Except.ok "tarball") ["alpine"] =
      some ⟨"format value must be one of oci-archive oci-dir docker-archive docker-dir"⟩ :=
  (C9_args_validator ["oci-archive", "oci-dir", "docker-archive", "docker-dir"] "tarball"
    ["alpine"]).2.2.1 (by decide) (by decide)

/-! ## The compress check reads the Changed bit -/

/-- Claim C10.  For a format other than `oci-dir` and `docker-dir`, `layer`
leaves with the compress error exactly when the `compress` flag was changed;
for the two directory formats the check never rejects.  A command line with an
explicit `--compress=false` parses to `Compress` false with the flag changed,
and is rejected when the format is not a directory format. -/
theorem C10_compress_check_reads_changed_bit
    (producer : String → String → Option GoError) (env : Env)
    (compressChanged : Bool) (layerOpts : ImageSaveOptions) (args : List String)
    (multiImageArchiveDefault : Bool) (given : FlagArgs) :
    (layerOpts.Format ≠ OCIManifestDir → layerOpts.Format ≠ V2s2ManifestDir →
      (((layerWith producer env compressChanged layerOpts args).site =
          ReturnSite.compressFormat ∧
        (layerWith producer env compressChanged layerOpts args).finalErr =
          some errCompress) ↔ compressChanged = true)) ∧
    ((layerOpts.Format = OCIManifestDir ∨ layerOpts.Format = V2s2ManifestDir) →
      (layerWith producer env compressChanged layerOpts args).site ≠
        ReturnSite.compressFormat) ∧
    (given.compress = some false →
      (layerFlags multiImageArchiveDefault given).layerOpts.Format ≠ OCIManifestDir →
      (layerFlags multiImageArchiveDefault given).layerOpts.Format ≠ V2s2ManifestDir →
      (layerFlags multiImageArchiveDefault given).layerOpts.Compress = false ∧
      (runLayer producer env multiImageArchiveDefault given args).site =
        ReturnSite.compressFormat ∧
      (runLayer producer env multiImageArchiveDefault given args).finalErr =
        some errCompress) := by
  refine ⟨?_, ?_, ?_⟩
  · intro h1 h2
    cases compressChanged with
    | true =>
      rw [layerWith_rejected producer env layerOpts args h1 h2]
      simp
    | false =>
      refine layerWith_cases
        (fun r => (r.site = ReturnSite.compressFormat ∧ r.finalErr = some errCompress) ↔
          false = true)
        producer env false layerOpts args ?_ ?_ ?_ ?_ ?_
      · intro h _ _
        exact absurd h (by decide)
      · intro _ _
        simp
      · intro err _ _ _
        simp
      · intro _ _ _
        unfold layerTail
        cases hv : env.validateFileName env.setupPipe.pipePath <;> simp
      · intro _
        unfold layerTail
        cases hv : env.validateFileName layerOpts.Output <;> simp
  · intro hdir
    refine layerWith_cases (fun r => r.site ≠ ReturnSite.compressFormat)
      producer env compressChanged layerOpts args ?_ ?_ ?_ ?_ ?_
    · intro _ h1 h2
      rcases hdir with h | h
      · exact absurd h h1
      · exact absurd h h2
    · intro _ _
      simp
    · intro err _ _ _
      simp
    · intro _ _ _
      unfold layerTail
      cases hv : env.validateFileName env.setupPipe.pipePath <;> simp
    · intro _
      unfold layerTail
      cases hv : env.validateFileName layerOpts.Output <;> simp
  · intro hgiven h1 h2
    have hchanged : (layerFlags multiImageArchiveDefault given).compressChanged = true := by
      simp [layerFlags, hgiven]
    refine ⟨by simp [layerFlags, hgiven], ?_, ?_⟩
    · unfold runLayer
      simp only [hchanged]
      rw [layerWith_rejected producer env _ args h1 h2]
    · unfold runLayer
      simp only [hchanged]
      rw [layerWith_rejected producer env _ args h1 h2]

theorem C10_witness :
    (layerFlags false ⟨some false, none, none, some "out.tar", none, none⟩).layerOpts.Compress
      = false ∧
    (runLayer replace envTerminal false ⟨some false, none, none, some "out.tar", none, none⟩
      ["alpine"]).finalErr = some errCompress :=
  ⟨by decide,
   ((C10_compress_check_reads_changed_bit replace envTerminal false
      (optsOf "docker-archive" "out.tar") ["alpine"] false
      ⟨some false, none, none, some "out.tar", none, none⟩).2.2
      rfl (by decide) (by decide)).2.2⟩

end Podman
